import Mathlib

/-!
Shallow embedding of the Lightning Network transaction simulator
(`scripts/simulate_network.py`): the feasibility pre-check, the payment
classification and statistics updates of `simulate_transaction`, the
statistics ratios of `print_statistics`, the targeted auto-recovery
rebalancing of `targeted_rebalance`, the snapshot logging of
`log_channel_snapshot`, and the consecutive-failure bookkeeping of `main`.

Machine integers of the source are modelled as `ℕ`/`ℤ`; the Python float
expressions `capacity * 0.2` and `capacity * 0.1` truncated by `int(...)`
are modelled by natural-number division (`capacity * 2 / 10`, `capacity / 10`),
their exact values for capacities in the simulator's range; percentage
ratios computed with Python's true division `/` are modelled in `ℚ`.
Python code that can raise (`ZeroDivisionError`) or return `None` is
modelled with `Option`.
-/

namespace LightningSim

/-- One entry of a node's `listchannels` result, as the simulator reads it:
`remote_pubkey`, `capacity`, `local_balance`, `remote_balance` (the source
coerces the balance fields with `int(...)`). -/
structure SrcChannel where
  remote_pubkey : String
  capacity : ℕ
  local_balance : ℕ
  remote_balance : ℕ
deriving DecidableEq, Repr

/-- Result of `create_invoice`: the fields `simulate_transaction` reads.
`none` for a field models a missing key. -/
structure Invoice where
  payment_request : Option String
  r_hash : Option String
deriving DecidableEq, Repr

/-- The `payment_route` object of a successful payment result. -/
structure Route where
  total_fees : ℕ
  hops : List String
deriving DecidableEq, Repr

/-- Result of `pay_invoice` as read by `simulate_transaction`:
`payment_error` (missing key modelled as `none`), `status`,
`payment_route` and the fallback top-level `fee` field. -/
structure PayResult where
  payment_error : Option String
  status : Option String
  payment_route : Option Route
  fee : Option ℕ
deriving DecidableEq, Repr

/-- A finished transaction-event record, the dict the simulator writes to
CSV (kinds `payment`, `rebalance`, `snapshot`). The JSON-encoded channel
summaries are kept as opaque strings. -/
structure Event where
  timestamp : String
  type : String
  sender : String
  receiver : String
  amount : ℕ
  fee : ℕ
  route_length : ℕ
  success : Bool
  payment_hash : String
  description : String
  duration_ms : ℕ
  channel_before : String
  channel_after : String
deriving DecidableEq, Repr

/-- The global `stats` dict. `consecutive_failures` is an unbounded Python
integer, so it is modelled as `ℤ` (whether it can go negative is exactly
what claim C2 asks); the per-node `node_payments` sub-dicts are modelled
as total functions from node name to sats. -/
structure Stats where
  total_payments : ℕ
  successful_payments : ℕ
  failed_payments : ℕ
  total_amount : ℕ
  total_fees : ℕ
  node_sent : String → ℕ
  node_received : String → ℕ
  rebalance_operations : ℕ
  rebalance_successes : ℕ
  consecutive_failures : ℤ
  auto_rebalance_events : ℕ
  auto_rebalance_successes : ℕ

/-- The zeroed `stats` dict created at module load; `main` additionally
resets `consecutive_failures` to `0` before the loop starts. -/
def initStats : Stats where
  total_payments := 0
  successful_payments := 0
  failed_payments := 0
  total_amount := 0
  total_fees := 0
  node_sent := fun _ => 0
  node_received := fun _ => 0
  rebalance_operations := 0
  rebalance_successes := 0
  consecutive_failures := 0
  auto_rebalance_events := 0
  auto_rebalance_successes := 0

/-! ## Feasibility check (`check_payment_feasibility`, lines 233-259) -/

/-- `check_payment_feasibility(sender, receiver, amount)`. The sender's
channel list is the value of `get_node_channels(sender)` (`none` models a
failed query or a reply without a `channels` key); `receiverIdentity` is
the receiver's `identity_pubkey` as resolved by `get_node_info(receiver)`
(`none` models a failed lookup). First loop: any channel whose
`remote_pubkey` equals the receiver's identity and whose local balance
covers the amount; second loop: any channel whose local balance covers
the amount. -/
def check_payment_feasibility (channels : Option (List SrcChannel))
    (receiverIdentity : Option String) (amount : ℕ) : Bool :=
  match channels with
  | none => false
  | some l =>
    if l.isEmpty then false
    else
      (l.any fun ch =>
        (match receiverIdentity with
         | some pk => pk == ch.remote_pubkey
         | none => false) && decide (amount ≤ ch.local_balance))
      || (l.any fun ch => decide (amount ≤ ch.local_balance))

/-- Modelled from the claim's wording for the refinement comparison (C10):
"channel data is available and some channel of the sender has local
balance ≥ amount". -/
def feasibilitySpecSimple (channels : Option (List SrcChannel)) (amount : ℕ) : Bool :=
  match channels with
  | none => false
  | some l => l.any fun ch => decide (amount ≤ ch.local_balance)

/-! ## Payment classification and statistics update
(`simulate_transaction`, lines 313-446) -/

/-- Python truthiness of `payment_result["payment_error"]` guarded by
`"payment_error" in payment_result`: the key is present and non-empty. -/
def errTruthy (pr : PayResult) : Bool :=
  match pr.payment_error with
  | some s => !(s == "")
  | none => false

/-- Success classification of `simulate_transaction`: no truthy
`payment_error`, and `status == "SUCCEEDED"`; a missing result
(`pay_invoice` returned nothing useful) is a failure. -/
def isSuccessResult (po : Option PayResult) : Bool :=
  match po with
  | some pr => !errTruthy pr && (pr.status == some "SUCCEEDED")
  | none => false

/-- The `route_length` a payment event ends up with: default `1`,
overwritten by `len(route["hops"])` only in the success branch when the
result carries a `payment_route`. -/
def routeLengthOf (success : Bool) (po : Option PayResult) : ℕ :=
  if success then
    match po with
    | some pr =>
      match pr.payment_route with
      | some route => route.hops.length
      | none => 1
    | none => 1
  else 1

/-- The `fee` a payment event ends up with: default `0`, overwritten in
the success branch by `route["total_fees"]` when a `payment_route` is
present, else by the top-level `fee` field when present. -/
def feeOf (success : Bool) (po : Option PayResult) : ℕ :=
  if success then
    match po with
    | some pr =>
      match pr.payment_route with
      | some route => route.total_fees
      | none => pr.fee.getD 0
    | none => 0
  else 0

/-- The pure core of `simulate_transaction` from invoice creation onward:
given the already-selected sender/receiver/amount/description, the
invoice-creation result, the payment result and the measured duration, it
returns the event dict (or `none` when the attempt is abandoned) and the
updated `stats`. Mirrors lines 313-446: abandon on missing invoice or
missing `payment_request` before touching any counter; otherwise classify,
update `consecutive_failures`, bump the aggregate counters, and build the
`type = "payment"` record. -/
def simulate_transaction (timestamp sender receiver : String) (amount : ℕ)
    (description : String) (invoice_result : Option Invoice)
    (po : Option PayResult) (duration_ms : ℕ)
    (channel_before channel_after : String) (s : Stats) :
    Option Event × Stats :=
  match invoice_result with
  | none => (none, s)
  | some inv =>
    match inv.payment_request with
    | none => (none, s)
    | some _ =>
      let payment_hash := inv.r_hash.getD "unknown"
      let success := isSuccessResult po
      let fee := feeOf success po
      let route_length := routeLengthOf success po
      let s1 := if success then { s with consecutive_failures := 0 }
                else { s with consecutive_failures := s.consecutive_failures + 1 }
      let s2 := { s1 with total_payments := s1.total_payments + 1 }
      let s3 :=
        if success then
          { s2 with
            successful_payments := s2.successful_payments + 1
            total_amount := s2.total_amount + amount
            total_fees := s2.total_fees + fee
            node_sent := fun n => if n = sender then s2.node_sent n + amount else s2.node_sent n
            node_received := fun n => if n = receiver then s2.node_received n + amount else s2.node_received n }
        else { s2 with failed_payments := s2.failed_payments + 1 }
      (some { timestamp := timestamp, type := "payment", sender := sender,
              receiver := receiver, amount := amount, fee := fee,
              route_length := route_length, success := success,
              payment_hash := payment_hash, description := description,
              duration_ms := duration_ms, channel_before := channel_before,
              channel_after := channel_after }, s3)

/-! ## Statistics ratios (`print_statistics`, lines 596-655) and the
channel percentage of `targeted_rebalance` (line 752) -/

/-- Success rate: `successful / total * 100`, printed as `0.0%` when
`total_payments` is not positive. -/
def successRate (successful total : ℕ) : ℚ :=
  if 0 < total then (successful : ℚ) / (total : ℚ) * 100 else 0

/-- Average fee: `total_fees / successful_payments`, printed as `0.00`
when there are no successful payments. -/
def averageFee (fees successful : ℕ) : ℚ :=
  if 0 < successful then (fees : ℚ) / (successful : ℚ) else 0

/-- Fee percentage: `total_fees / total_amount * 100`, printed as
`0.0000%` when `total_amount` (or the successful-payment count guarding
it) is not positive. -/
def feePercentage (fees amount : ℕ) : ℚ :=
  if 0 < amount then (fees : ℚ) / (amount : ℚ) * 100 else 0

/-- Payments per minute: `total_payments / runtime`, printed as `0.00`
when the elapsed runtime is not positive. -/
def paymentsPerMinute (total : ℕ) (runtime : ℚ) : ℚ :=
  if 0 < runtime then (total : ℚ) / runtime else 0

/-- Rebalance success rate: `rebalance_successes / rebalance_operations *
100`; the source only evaluates the quotient when the operation count is
positive (nothing is printed otherwise), so the denominator of the
division is never 0. -/
def rebalanceSuccessRate (successes operations : ℕ) : ℚ :=
  if 0 < operations then (successes : ℚ) / (operations : ℚ) * 100 else 0

/-- Auto-recovery success rate: `auto_rebalance_successes /
auto_rebalance_events * 100`, likewise guarded by a positive event
count. -/
def autoRecoverySuccessRate (successes events : ℕ) : ℚ :=
  if 0 < events then (successes : ℚ) / (events : ℚ) * 100 else 0

/-- The `local_pct = local_balance / capacity * 100` computed for every
channel inside `targeted_rebalance` (line 752). The source performs the
division unguarded, so a channel with `capacity = 0` raises
`ZeroDivisionError`; that partiality is modelled as `none`. -/
def targetedLocalPct (local_balance capacity : ℕ) : Option ℚ :=
  if capacity = 0 then none
  else some ((local_balance : ℚ) / (capacity : ℚ) * 100)

/-! ## Targeted auto-recovery rebalancing (`targeted_rebalance`,
lines 729-874) -/

/-- The recovery transfer amount (lines 799-802):
`amount = int(capacity * RECOVERY_REBALANCE_AMOUNT)` with
`RECOVERY_REBALANCE_AMOUNT = 0.2`, then
`if amount < 10000: amount = min(10000, int(capacity * 0.1))`. -/
def recoveryAmount (capacity : ℕ) : ℕ :=
  let amount := capacity * 2 / 10
  if amount < 10000 then min 10000 (capacity / 10) else amount

/-- One entry of the `imbalanced_channels` list built by
`targeted_rebalance` (lines 765-773). -/
structure ImbEntry where
  node : String
  remote_node : String
  local_pct : ℚ
  imbalance : ℚ
  capacity : ℕ
  local_balance : ℕ
  remote_pubkey : String
deriving DecidableEq, Repr

/-- Builds one `imbalanced_channels` entry for a channel owned by `node`;
`resolve` is the pubkey-to-node-name lookup performed with `get_node_info`
(the source defaults the name to `"unknown"` when no node matches, which
`resolve` is expected to do as well). Returns `none` when the unguarded
percentage computation would raise (capacity 0). -/
def mkImbEntry (node : String) (resolve : String → String) (ch : SrcChannel) :
    Option ImbEntry :=
  (targetedLocalPct ch.local_balance ch.capacity).map fun pct =>
    { node := node
      remote_node := resolve ch.remote_pubkey
      local_pct := pct
      imbalance := |50 - pct|
      capacity := ch.capacity
      local_balance := ch.local_balance
      remote_pubkey := ch.remote_pubkey }

/-- Builds the flat `imbalanced_channels` list from the per-node channel
queries (a node whose query fails or lacks a `channels` key is skipped);
`none` when any channel aborts the whole pass with `ZeroDivisionError`. -/
def gatherImbalanced (resolve : String → String) :
    List (String × SrcChannel) → Option (List ImbEntry)
  | [] => some []
  | (n, ch) :: rest =>
    match mkImbEntry n resolve ch with
    | none => none
    | some e => (gatherImbalanced resolve rest).map (e :: ·)

/-- Flattens the per-node query results into (node, channel) pairs in
discovery order, dropping nodes whose channel query failed. -/
def flattenNodeChannels (data : List (String × Option (List SrcChannel))) :
    List (String × SrcChannel) :=
  data.foldr (fun p acc =>
    match p.2 with
    | none => acc
    | some chs => chs.map (fun ch => (p.1, ch)) ++ acc) []

/-- Sort key relation of
`imbalanced_channels.sort(key=lambda x: x["imbalance"], reverse=True)`:
`a` may be placed before `b` exactly when `a`'s imbalance is at least
`b`'s. -/
def imbGE (a b : ImbEntry) : Prop := b.imbalance ≤ a.imbalance

instance : DecidableRel imbGE := fun a b =>
  inferInstanceAs (Decidable (b.imbalance ≤ a.imbalance))

instance : IsTotal ImbEntry imbGE := ⟨fun a b => le_total b.imbalance a.imbalance⟩

instance : IsTrans ImbEntry imbGE := ⟨fun _ _ _ hab hbc => le_trans hbc hab⟩

/-- Python's `list.sort` with `reverse=True` is a stable descending sort;
insertion sort with `imbGE` (ties resolved in favour of the earlier
element) computes the same list. -/
def sortByImbalanceDesc (l : List ImbEntry) : List ImbEntry :=
  l.insertionSort imbGE

/-- The channels `targeted_rebalance` actually processes:
`imbalanced_channels[:3]` after the descending stable sort; `none` when
gathering aborted. -/
def targetedSelection (resolve : String → String)
    (data : List (String × Option (List SrcChannel))) :
    Option (List ImbEntry) :=
  (gatherImbalanced resolve (flattenNodeChannels data)).map
    fun l => (sortByImbalanceDesc l).take 3

/-- Outcome of one rebalancing attempt, as `targeted_rebalance` branches
on it: invoice creation failed (no invoice or no `payment_request`,
`continue` before any event is written), the payment reported
`SUCCEEDED`, or the payment failed (truthy `payment_error`, any other
terminal status, or no result at all). -/
inductive AttemptOutcome where
  | invoiceFailed
  | paySucceeded
  | payFailed
deriving DecidableEq, Repr

/-- The external data of one attempt on a selected channel: who pays, who
receives, the transfer amount, and how the invoice/payment calls went. -/
structure RebAttempt where
  sender : String
  receiver : String
  amount : ℕ
  outcome : AttemptOutcome
deriving DecidableEq, Repr

/-- The `rebalance_data` record written for one processed channel
(lines 849-863): kind `rebalance`, fee 0, route length 1, and `success`
equal to the current value of the run-wide `rebalance_success` flag. -/
def mkRebalanceEvent (a : RebAttempt) (flag : Bool) : Event where
  timestamp := ""
  type := "rebalance"
  sender := a.sender
  receiver := a.receiver
  amount := a.amount
  fee := 0
  route_length := 1
  success := flag
  payment_hash := ""
  description := "Auto-recovery rebalance"
  duration_ms := 0
  channel_before := ""
  channel_after := ""

/-- Processes the selected channels in order, threading the run-wide
`rebalance_success` flag (initially `False`): an invoice failure emits no
event and leaves the flag; a successful payment sets the flag before the
event is built; a failed payment emits an event carrying the current
flag. Returns the emitted events and the final flag, which is
`targeted_rebalance`'s return value. -/
def runTargetedAttempts (flag : Bool) :
    List RebAttempt → List Event × Bool
  | [] => ([], flag)
  | a :: rest =>
    match a.outcome with
    | AttemptOutcome.invoiceFailed => runTargetedAttempts flag rest
    | AttemptOutcome.paySucceeded =>
      let r := runTargetedAttempts true rest
      (mkRebalanceEvent a true :: r.1, r.2)
    | AttemptOutcome.payFailed =>
      let r := runTargetedAttempts flag rest
      (mkRebalanceEvent a flag :: r.1, r.2)

/-- Same pass as `runTargetedAttempts`, but keeping one slot per
attempted channel (`none` where the `continue` for a failed invoice
skipped the event), so that the event written for the k-th attempt can be
addressed by position. -/
def runTargetedAligned (flag : Bool) :
    List RebAttempt → List (Option Event)
  | [] => []
  | a :: rest =>
    match a.outcome with
    | AttemptOutcome.invoiceFailed => none :: runTargetedAligned flag rest
    | AttemptOutcome.paySucceeded =>
      some (mkRebalanceEvent a true) :: runTargetedAligned true rest
    | AttemptOutcome.payFailed =>
      some (mkRebalanceEvent a flag) :: runTargetedAligned flag rest

/-- Whether one attempt's payment reported `SUCCEEDED`. -/
def attemptOk (a : RebAttempt) : Bool := a.outcome == AttemptOutcome.paySucceeded

/-! ## Snapshot logging (`log_channel_snapshot`, lines 876-904) -/

/-- The `snapshot_data` record: kind `snapshot`, zero amount/fee, route
length 0, success `True`. -/
def log_channel_snapshot (timestamp all_channels : String) : Event where
  timestamp := timestamp
  type := "snapshot"
  sender := ""
  receiver := ""
  amount := 0
  fee := 0
  route_length := 0
  success := true
  payment_hash := ""
  description := "Periodic channel state snapshot"
  duration_ms := 0
  channel_before := ""
  channel_after := all_channels

/-! ## The recovery update and the control-loop trace (`main`,
lines 1003-1068, recovery block lines 1022-1042) -/

/-- The post-recovery counter update of `main` (lines 1031-1036): if
`targeted_rebalance()` returned `True` the counter is reset to 0,
otherwise it becomes `max(0, consecutive_failures - 2)`; either way the
loop falls through to normal traffic generation. -/
def recoveryUpdate (attempts : List RebAttempt) (s : Stats) : Stats :=
  if (runTargetedAttempts false attempts).2 then
    { s with consecutive_failures := 0 }
  else
    { s with consecutive_failures := max 0 (s.consecutive_failures - 2) }

/-- Inputs of one executed payment attempt, for trace-level reasoning. -/
structure PaymentArgs where
  timestamp : String
  sender : String
  receiver : String
  amount : ℕ
  description : String
  invoice_result : Option Invoice
  po : Option PayResult
  duration_ms : ℕ
  channel_before : String
  channel_after : String

/-- One step of the control loop that touches the failure counter: an
executed payment attempt, or a completed recovery pass. -/
inductive SimStep where
  | payment (args : PaymentArgs)
  | recovery (attempts : List RebAttempt)

/-- Applies one control-loop step to the statistics state. -/
def stepSim (s : Stats) : SimStep → Stats
  | SimStep.payment a =>
    (simulate_transaction a.timestamp a.sender a.receiver a.amount a.description
      a.invoice_result a.po a.duration_ms a.channel_before a.channel_after s).2
  | SimStep.recovery attempts => recoveryUpdate attempts s

/-- The statistics state after executing a whole trace of control-loop
steps from the freshly initialized state. -/
def runSim (steps : List SimStep) : Stats :=
  steps.foldl stepSim initStats

/-- What claim C9 says the `success` field of the event written for the
k-th attempted channel is (given the flag starts at `f`): nothing when
that attempt's invoice creation failed, else whether any of the attempts
1..k reported success. -/
def expectedSuccessAt (f : Bool) (l : List RebAttempt) (k : ℕ) : Option Bool :=
  match l[k]? with
  | none => none
  | some a =>
    match a.outcome with
    | AttemptOutcome.invoiceFailed => none
    | _ => some (f || (l.take (k + 1)).any attemptOk)

/-- Channel data for the worked example of claim C6: one node with four
channels of capacity 100 and local balances 90, 50, 10, 70, i.e. local
percentages [90, 50, 10, 70] in discovery order. -/
def exampleC6Data : List (String × Option (List SrcChannel)) :=
  [("lnd-alice", some
    [{ remote_pubkey := "pk-b", capacity := 100, local_balance := 90, remote_balance := 10 },
     { remote_pubkey := "pk-c", capacity := 100, local_balance := 50, remote_balance := 50 },
     { remote_pubkey := "pk-d", capacity := 100, local_balance := 10, remote_balance := 90 },
     { remote_pubkey := "pk-e", capacity := 100, local_balance := 70, remote_balance := 30 }])]

/-- Pubkey resolution for the C6 example: no other node is registered, so
every lookup yields the source's default name. -/
def exampleC6Resolve : String → String := fun _ => "unknown"

/-- Concrete imbalanced-channel entries used to instantiate the
top-3-dominance part of claim C6 at a closed input. -/
def wEntry (name : String) (pct imb : ℚ) : ImbEntry where
  node := name
  remote_node := "unknown"
  local_pct := pct
  imbalance := imb
  capacity := 100
  local_balance := 0
  remote_pubkey := "pk"

/-! ## Theorems -/

/-- Helper: a feasibility hit in the direct-channel loop implies a hit in
the lenient any-channel loop. -/
theorem any_direct_imp_any_lenient (l : List SrcChannel) (rid : Option String)
    (amount : ℕ)
    (h : (l.any fun ch =>
        (match rid with
         | some pk => pk == ch.remote_pubkey
         | none => false) && decide (amount ≤ ch.local_balance)) = true) :
    (l.any fun ch => decide (amount ≤ ch.local_balance)) = true := by
  rw [List.any_eq_true] at h ⊢
  obtain ⟨ch, hm, hc⟩ := h
  simp only [Bool.and_eq_true] at hc
  exact ⟨ch, hm, hc.2⟩

/-- Helper: `check_payment_feasibility` coincides with the
receiver-independent predicate `feasibilitySpecSimple`. -/
theorem check_feasibility_eq_simple (chans : Option (List SrcChannel))
    (rid : Option String) (amount : ℕ) :
    check_payment_feasibility chans rid amount = feasibilitySpecSimple chans amount := by
  match chans with
  | none => rfl
  | some [] => rfl
  | some (x :: xs) =>
    show (_ || _) = _
    cases hd : ((x :: xs).any fun ch =>
        (match rid with
         | some pk => pk == ch.remote_pubkey
         | none => false) && decide (amount ≤ ch.local_balance)) with
    | false => simp [feasibilitySpecSimple, hd]
    | true =>
      simp [feasibilitySpecSimple, hd,
        any_direct_imp_any_lenient (x :: xs) rid amount hd]

/-- C1: in targeted recovery rebalancing the transfer amount for a
selected channel of capacity `c` is `int(c * 0.2)`, replaced by
`min(10000, int(c * 0.1))` whenever that product falls below 10000; in
particular the amount is never smaller than both `int(c * 0.2)` and
`min(10000, int(c * 0.1))` (it always equals one of the two, and it is
always at least the latter). -/
theorem claim1_recovery_amount (c : ℕ) :
    recoveryAmount c
      = (if c * 2 / 10 < 10000 then min 10000 (c / 10) else c * 2 / 10)
    ∧ min 10000 (c / 10) ≤ recoveryAmount c
    ∧ ¬(recoveryAmount c < c * 2 / 10 ∧ recoveryAmount c < min 10000 (c / 10)) := by
  unfold recoveryAmount
  by_cases h : c * 2 / 10 < 10000
  · refine ⟨by simp [h], by simp [h], ?_⟩
    simp only [h, if_true]
    rintro ⟨-, h2⟩
    exact lt_irrefl _ h2
  · refine ⟨by simp [h], ?_, ?_⟩
    · simp only [h, if_false]
      exact le_trans (min_le_left _ _) (le_of_not_lt h)
    · simp only [h, if_false]
      rintro ⟨h1, -⟩
      exact lt_irrefl _ h1

/-- C4: the feasibility check returns false when the sender's channel
data is unavailable or empty; otherwise it returns true exactly when some
channel whose counterparty resolves to the receiver covers the amount,
or, failing that, when any channel of the sender covers the amount; and
in the concrete scenario of a direct channel of capacity 10000 with local
balance 9000 it accepts an amount of 3000. -/
theorem claim4_feasibility :
    (∀ rid amount, check_payment_feasibility none rid amount = false)
    ∧ (∀ rid amount, check_payment_feasibility (some []) rid amount = false)
    ∧ (∀ (l : List SrcChannel) rid amount,
        check_payment_feasibility (some l) rid amount =
          ((l.any fun ch =>
            (match rid with
             | some pk => pk == ch.remote_pubkey
             | none => false) && decide (amount ≤ ch.local_balance))
          || (l.any fun ch => decide (amount ≤ ch.local_balance))))
    ∧ check_payment_feasibility
        (some [{ remote_pubkey := "pk-receiver", capacity := 10000,
                 local_balance := 9000, remote_balance := 1000 }])
        (some "pk-receiver") 3000 = true := by
  refine ⟨fun _ _ => rfl, fun _ _ => rfl, ?_, by decide⟩
  intro l rid amount
  match l with
  | [] => simp [check_payment_feasibility]
  | x :: xs => rfl

/-- C5: every statistics ratio of `print_statistics` (success rate,
average fee, fee percentage, payments per minute, rebalance and
auto-recovery success rates) is 0 when its denominator is 0, but the
local-balance percentage computed for each channel inside
`targeted_rebalance` is undefined (the source raises `ZeroDivisionError`)
for a channel of capacity 0, so the claim's "never raises" part fails on
the code: this theorem exhibits the guarded ratios alongside the
unguarded one. -/
theorem claim5_ratio_guards :
    (∀ n, successRate n 0 = 0)
    ∧ (∀ f, averageFee f 0 = 0)
    ∧ (∀ f, feePercentage f 0 = 0)
    ∧ (∀ n, paymentsPerMinute n 0 = 0)
    ∧ (∀ s, rebalanceSuccessRate s 0 = 0)
    ∧ (∀ s, autoRecoverySuccessRate s 0 = 0)
    ∧ (∀ lb, targetedLocalPct lb 0 = none)
    ∧ targetedLocalPct 9000 10000 = some 90 := by
  refine ⟨fun n => ?_, fun f => ?_, fun f => ?_, fun n => ?_, fun s => ?_,
    fun s => ?_, fun lb => ?_, ?_⟩
  · simp [successRate]
  · simp [averageFee]
  · simp [feePercentage]
  · simp [paymentsPerMinute]
  · simp [rebalanceSuccessRate]
  · simp [autoRecoverySuccessRate]
  · simp [targetedLocalPct]
  · simp [targetedLocalPct]
    norm_num

/-- C7: when invoice creation returns no result, or a result without a
payment request, `simulate_transaction` abandons the attempt: it returns
no event and leaves the whole statistics state (failure counter included)
unchanged. -/
theorem claim7_invoice_failure_abandons :
    (∀ ts sender receiver amount desc po dms cb ca s,
      simulate_transaction ts sender receiver amount desc none po dms cb ca s
        = (none, s))
    ∧ (∀ ts sender receiver amount desc rh po dms cb ca s,
      simulate_transaction ts sender receiver amount desc
        (some { payment_request := none, r_hash := rh }) po dms cb ca s
        = (none, s)) :=
  ⟨fun _ _ _ _ _ _ _ _ _ _ => rfl, fun _ _ _ _ _ _ _ _ _ _ _ => rfl⟩

/-- C10: for a fixed channel dataset of the sender,
`check_payment_feasibility` gives the same verdict for every receiver,
and it coincides with the simpler predicate "channel data is available
and some channel of the sender has local balance ≥ amount": the
direct-path branch never changes the outcome. -/
theorem claim10_feasibility_receiver_independent :
    ∀ (chans : Option (List SrcChannel)) (rid rid' : Option String) (amount : ℕ),
      check_payment_feasibility chans rid amount
        = check_payment_feasibility chans rid' amount
      ∧ check_payment_feasibility chans rid amount
        = feasibilitySpecSimple chans amount :=
  fun chans rid rid' amount =>
    ⟨(check_feasibility_eq_simple chans rid amount).trans
      (check_feasibility_eq_simple chans rid' amount).symm,
     check_feasibility_eq_simple chans rid amount⟩

/-- Helper: every control-loop step keeps the consecutive-failure counter
nonnegative. -/
theorem stepSim_counter_nonneg (s : Stats) (st : SimStep)
    (hs : 0 ≤ s.consecutive_failures) : 0 ≤ (stepSim s st).consecutive_failures := by
  cases st with
  | payment a =>
    show 0 ≤ ((simulate_transaction a.timestamp a.sender a.receiver a.amount
      a.description a.invoice_result a.po a.duration_ms a.channel_before
      a.channel_after s).2).consecutive_failures
    rcases a.invoice_result with - | ⟨pr, rh⟩
    · exact hs
    · rcases pr with - | req
      · exact hs
      · cases h : isSuccessResult a.po with
        | true => simp [simulate_transaction, h]
        | false =>
          simp only [simulate_transaction, h, Bool.false_eq_true, if_false]
          omega
  | recovery attempts =>
    show 0 ≤ (recoveryUpdate attempts s).consecutive_failures
    unfold recoveryUpdate
    cases h : (runTargetedAttempts false attempts).2 with
    | true => simp [h]
    | false => simp [h]

/-- C2: with a usable invoice, a failed payment increments the
consecutive-failure counter by exactly 1 and a successful payment resets
it to exactly 0; and along every trace of control-loop steps (payments
and recovery passes alike) the counter stays nonnegative. -/
theorem claim2_consecutive_failures :
    (∀ ts sender receiver amount desc req rh po dms cb ca s,
      ((simulate_transaction ts sender receiver amount desc
          (some { payment_request := some req, r_hash := rh })
          po dms cb ca s).2).consecutive_failures
        = if isSuccessResult po then 0 else s.consecutive_failures + 1)
    ∧ (∀ steps : List SimStep, 0 ≤ (runSim steps).consecutive_failures) := by
  constructor
  · intro ts sender receiver amount desc req rh po dms cb ca s
    cases h : isSuccessResult po <;> simp [simulate_transaction, h]
  · intro steps
    have inv : ∀ (l : List SimStep) (s : Stats), 0 ≤ s.consecutive_failures →
        0 ≤ (l.foldl stepSim s).consecutive_failures := by
      intro l
      induction l with
      | nil => exact fun s hs => hs
      | cons st rest ih => exact fun s hs => ih _ (stepSim_counter_nonneg s st hs)
    exact inv steps initStats le_rfl

/-- Helper: `attemptOk` of an attempt whose invoice creation failed. -/
theorem attemptOk_invoiceFailed {a : RebAttempt}
    (h : a.outcome = AttemptOutcome.invoiceFailed) : attemptOk a = false := by
  unfold attemptOk
  rw [h]
  decide

/-- Helper: `attemptOk` of an attempt whose payment failed. -/
theorem attemptOk_payFailed {a : RebAttempt}
    (h : a.outcome = AttemptOutcome.payFailed) : attemptOk a = false := by
  unfold attemptOk
  rw [h]
  decide

/-- Helper: `attemptOk` of an attempt whose payment succeeded. -/
theorem attemptOk_paySucceeded {a : RebAttempt}
    (h : a.outcome = AttemptOutcome.paySucceeded) : attemptOk a = true := by
  unfold attemptOk
  rw [h]
  decide

/-- Helper: the flag returned by the targeted-rebalance pass is the
initial flag joined with "some attempt succeeded". -/
theorem runTargetedAttempts_returns_any (l : List RebAttempt) :
    ∀ f, (runTargetedAttempts f l).2 = (f || l.any attemptOk) := by
  induction l with
  | nil => intro f; simp [runTargetedAttempts]
  | cons a rest ih =>
    intro f
    cases h : a.outcome with
    | invoiceFailed =>
      simp [runTargetedAttempts, h, ih, attemptOk_invoiceFailed h]
    | paySucceeded =>
      simp [runTargetedAttempts, h, ih, attemptOk_paySucceeded h]
    | payFailed =>
      simp [runTargetedAttempts, h, ih, attemptOk_payFailed h]

/-- C3: `targeted_rebalance` returns true exactly when at least one of
the attempted rebalances reported success, and the post-recovery update
of `main` then sets the consecutive-failure counter to 0 on a true
return and to `max(0, counter - 2)` otherwise — a total update, so the
loop resumes normal traffic generation in either case. -/
theorem claim3_recovery_outcome :
    (∀ attempts : List RebAttempt,
      (runTargetedAttempts false attempts).2 = attempts.any attemptOk)
    ∧ (∀ (attempts : List RebAttempt) (s : Stats),
      (recoveryUpdate attempts s).consecutive_failures
        = if attempts.any attemptOk then 0
          else max 0 (s.consecutive_failures - 2)) := by
  constructor
  · intro attempts
    simpa using runTargetedAttempts_returns_any attempts false
  · intro attempts s
    unfold recoveryUpdate
    rw [runTargetedAttempts_returns_any attempts false]
    cases ha : attempts.any attemptOk <;> simp [ha]

/-- Helper: the events actually written by the pass are the aligned
per-attempt slots with the skipped attempts removed. -/
theorem runTargetedAttempts_fst_eq_aligned (l : List RebAttempt) :
    ∀ f, (runTargetedAttempts f l).1 = (runTargetedAligned f l).filterMap id := by
  induction l with
  | nil => intro f; simp [runTargetedAttempts, runTargetedAligned]
  | cons a rest ih =>
    intro f
    cases h : a.outcome <;>
      simp [runTargetedAttempts, runTargetedAligned, h, ih]

/-- Helper: peeling the first attempt off the claim-C9 expectation folds
that attempt's success into the initial flag. -/
theorem expectedSuccessAt_cons_succ (f : Bool) (a : RebAttempt)
    (rest : List RebAttempt) (k : ℕ) :
    expectedSuccessAt f (a :: rest) (k + 1)
      = expectedSuccessAt (f || attemptOk a) rest k := by
  unfold expectedSuccessAt
  simp only [List.getElem?_cons_succ, List.take_succ_cons, List.any_cons]
  cases hrk : rest[k]? with
  | none => rfl
  | some b => cases hb : b.outcome <;> simp [Bool.or_assoc]

/-- Helper: the success field of the aligned event slot for the k-th
attempt matches the claim-C9 expectation, for every initial flag. -/
theorem runTargetedAligned_success_eq (l : List RebAttempt) :
    ∀ (f : Bool) (k : ℕ),
      ((runTargetedAligned f l).getD k none).map Event.success
        = expectedSuccessAt f l k := by
  induction l with
  | nil => intro f k; simp [runTargetedAligned, expectedSuccessAt]
  | cons a rest ih =>
    obtain ⟨asnd, arcv, aamt, aoutc⟩ := a
    intro f k
    cases k with
    | zero =>
      cases aoutc with
      | invoiceFailed => simp [runTargetedAligned, expectedSuccessAt]
      | paySucceeded =>
        simp [runTargetedAligned, expectedSuccessAt, mkRebalanceEvent,
          show attemptOk ⟨asnd, arcv, aamt, AttemptOutcome.paySucceeded⟩ = true from rfl]
      | payFailed =>
        simp [runTargetedAligned, expectedSuccessAt, mkRebalanceEvent,
          show attemptOk ⟨asnd, arcv, aamt, AttemptOutcome.payFailed⟩ = false from rfl]
    | succ k =>
      rw [expectedSuccessAt_cons_succ]
      cases aoutc with
      | invoiceFailed =>
        have hstep : runTargetedAligned f
            ((⟨asnd, arcv, aamt, AttemptOutcome.invoiceFailed⟩ : RebAttempt) :: rest)
            = none :: runTargetedAligned f rest := rfl
        have hfa : (f || attemptOk
            (⟨asnd, arcv, aamt, AttemptOutcome.invoiceFailed⟩ : RebAttempt)) = f := by
          rw [show attemptOk
            (⟨asnd, arcv, aamt, AttemptOutcome.invoiceFailed⟩ : RebAttempt)
              = false from rfl, Bool.or_false]
        rw [hstep, List.getD_cons_succ, ih f k, hfa]
      | paySucceeded =>
        have hstep : runTargetedAligned f
            ((⟨asnd, arcv, aamt, AttemptOutcome.paySucceeded⟩ : RebAttempt) :: rest)
            = some (mkRebalanceEvent
                ⟨asnd, arcv, aamt, AttemptOutcome.paySucceeded⟩ true)
              :: runTargetedAligned true rest := rfl
        have hfa : (f || attemptOk
            (⟨asnd, arcv, aamt, AttemptOutcome.paySucceeded⟩ : RebAttempt)) = true := by
          rw [show attemptOk
            (⟨asnd, arcv, aamt, AttemptOutcome.paySucceeded⟩ : RebAttempt)
              = true from rfl, Bool.or_true]
        rw [hstep, List.getD_cons_succ, ih true k, hfa]
      | payFailed =>
        have hstep : runTargetedAligned f
            ((⟨asnd, arcv, aamt, AttemptOutcome.payFailed⟩ : RebAttempt) :: rest)
            = some (mkRebalanceEvent
                ⟨asnd, arcv, aamt, AttemptOutcome.payFailed⟩ f)
              :: runTargetedAligned f rest := rfl
        have hfa : (f || attemptOk
            (⟨asnd, arcv, aamt, AttemptOutcome.payFailed⟩ : RebAttempt)) = f := by
          rw [show attemptOk
            (⟨asnd, arcv, aamt, AttemptOutcome.payFailed⟩ : RebAttempt)
              = false from rfl, Bool.or_false]
        rw [hstep, List.getD_cons_succ, ih f k, hfa]

/-- C9: within one targeted-rebalance run, the `success` field written
for the k-th attempted channel records whether any of attempts 1..k
succeeded — not whether attempt k itself did — so once one attempt
succeeds every later event of the run carries `success = true`; the
aligned per-attempt view used to state this yields exactly the events the
source writes once the skipped slots are removed, and the concrete run
[succeeded, failed] logs [true, true]. -/
theorem claim9_rebalance_event_success :
    (∀ (l : List RebAttempt) (k : ℕ),
      ((runTargetedAligned false l).getD k none).map Event.success
        = expectedSuccessAt false l k)
    ∧ (∀ (f : Bool) (l : List RebAttempt),
      (runTargetedAttempts f l).1 = (runTargetedAligned f l).filterMap id)
    ∧ ((runTargetedAttempts false
        [{ sender := "lnd-alice", receiver := "lnd-bob", amount := 10000,
           outcome := AttemptOutcome.paySucceeded },
         { sender := "lnd-carol", receiver := "lnd-dave", amount := 10000,
           outcome := AttemptOutcome.payFailed }]).1.map Event.success
        = [true, true]) :=
  ⟨fun l k => runTargetedAligned_success_eq l false k,
   fun f l => runTargetedAttempts_fst_eq_aligned l f,
   by decide⟩

/-- C8 (counterexample): not every event record the system constructs has
`route_length ≥ 1` — the snapshot record of `log_channel_snapshot` is
built with `route_length = 0`. -/
theorem claim8_counterexample :
    ¬ (1 ≤ (log_channel_snapshot "2024-01-01T00:00:00" "{}").route_length) := by
  decide

/-- C8 (amended): rebalance events are always constructed with
`route_length = 1`; snapshot events are always constructed with
`route_length = 0`; the payment event of `simulate_transaction` carries
exactly `routeLengthOf` of the classified result, which is at least 1
whenever any route reported with a successful payment has a nonempty hop
list. -/
theorem claim8_route_length_amended :
    (∀ (a : RebAttempt) (flag : Bool), (mkRebalanceEvent a flag).route_length = 1)
    ∧ (∀ ts cs, (log_channel_snapshot ts cs).route_length = 0)
    ∧ (∀ ts sender receiver amount desc req rh po dms cb ca s,
        ((simulate_transaction ts sender receiver amount desc
            (some { payment_request := some req, r_hash := rh })
            po dms cb ca s).1).map Event.route_length
          = some (routeLengthOf (isSuccessResult po) po))
    ∧ (∀ (b : Bool) (po : Option PayResult),
        (∀ pr, po = some pr → ∀ r, pr.payment_route = some r → r.hops ≠ []) →
        1 ≤ routeLengthOf b po) := by
  refine ⟨fun a flag => rfl, fun ts cs => rfl,
    fun ts sender receiver amount desc req rh po dms cb ca s => rfl, ?_⟩
  intro b po h
  unfold routeLengthOf
  cases b with
  | false => simp
  | true =>
    simp only [if_true]
    cases po with
    | none => simp
    | some pr =>
      cases hr : pr.payment_route with
      | none => simp [hr]
      | some r =>
        simp only [hr]
        exact List.length_pos.mpr (h pr rfl r hr)

/-- Helper: the stable descending sort of the targeted-rebalance pass is
sorted for the descending-imbalance relation. -/
theorem sortByImbalanceDesc_sorted (l : List ImbEntry) :
    List.Sorted imbGE (sortByImbalanceDesc l) :=
  List.sorted_insertionSort imbGE l

/-- Helper: the stable descending sort permutes the gathered entries. -/
theorem sortByImbalanceDesc_perm (l : List ImbEntry) :
    List.Perm (sortByImbalanceDesc l) l :=
  List.perm_insertionSort imbGE l

/-- C6: targeted rebalancing selects at most 3 channels; the sorted pass
is in descending imbalance order; it is a permutation of the gathered
(node, channel) entries, and every selected channel's imbalance dominates
every unselected one's; on channels with local percentages
[90, 50, 10, 70] (capacity 100) the selection in processing order is the
channels at 90, 10 and 70, with the 40-40 tie between 90 and 10 kept in
discovery order. -/
theorem claim6_targeted_selection :
    (∀ l : List ImbEntry, ((sortByImbalanceDesc l).take 3).length ≤ 3)
    ∧ (∀ l : List ImbEntry, List.Sorted imbGE (sortByImbalanceDesc l))
    ∧ (∀ l : List ImbEntry, List.Perm (sortByImbalanceDesc l) l)
    ∧ (∀ (l : List ImbEntry) (x y : ImbEntry),
        x ∈ (sortByImbalanceDesc l).take 3 →
        y ∈ (sortByImbalanceDesc l).drop 3 →
        y.imbalance ≤ x.imbalance)
    ∧ ((targetedSelection exampleC6Resolve exampleC6Data).map
        (fun sel => sel.map ImbEntry.local_pct) = some [90, 10, 70]) := by
  refine ⟨?_, sortByImbalanceDesc_sorted, sortByImbalanceDesc_perm, ?_, ?_⟩
  · intro l
    simp [List.length_take]
  · intro l x y hx hy
    exact (sortByImbalanceDesc_sorted l).rel_of_mem_take_of_mem_drop hx hy
  · norm_num [targetedSelection, exampleC6Data, exampleC6Resolve,
      flattenNodeChannels, gatherImbalanced, mkImbEntry, targetedLocalPct,
      sortByImbalanceDesc, List.insertionSort, List.orderedInsert, imbGE]

/-- Witness for C6's dominance part at a concrete four-entry list: the
dropped fourth entry's imbalance is bounded by the selected first
entry's. -/
theorem claim6_targeted_selection_witness :
    (wEntry "d" 60 10).imbalance ≤ (wEntry "a" 90 40).imbalance :=
  claim6_targeted_selection.2.2.2.1
    [wEntry "a" 90 40, wEntry "b" 80 30, wEntry "c" 70 20, wEntry "d" 60 10]
    (wEntry "a" 90 40) (wEntry "d" 60 10) (by decide) (by decide)

/-- Witness for the amended C8 at a concrete successful payment whose
route has one hop. -/
theorem claim8_route_length_amended_witness :
    1 ≤ routeLengthOf true (some
      { payment_error := none, status := some "SUCCEEDED",
        payment_route := some { total_fees := 10, hops := ["lnd-bob"] },
        fee := none }) :=
  claim8_route_length_amended.2.2.2 true _ (by
    intro pr hpr r hr
    simp only [Option.some.injEq] at hpr
    subst hpr
    simp only [Option.some.injEq] at hr
    subst hr
    simp)

end LightningSim
